import Mathlib

/-!
Shallow embedding of pycbc/waveform/bank.py (classes CachedFilterBank and
FilterBank) and proofs about it.

Modelling conventions:
- Python floats are modelled as rationals; numeric array content is a list of
  rationals (real series) or of pairs of rationals (complex frequency series).
- The external collaborators declared by the module (the LIGOLW table loader,
  the h5py cache, the pycbc.waveform generator queries and fill operation, the
  pycbc.filter.sigmasq inner-product routine, and the FFT inside
  to_frequencyseries) are not part of bank.py; they enter the embedding as
  explicit parameters (a loader outcome, a cache lookup function, a Generator
  record of pure functions, and sigmasq/fft function arguments).
- Python exceptions at the table-loading step are modelled by the loader
  outcome being an Except value; the try/except in both constructors maps a
  loader error to an empty table, so the embedded constructors are total.
-/

namespace PycbcBank

/-- Python int() applied to a rational: truncation toward zero (floor for a
nonnegative argument, negated floor of the negation otherwise). -/
def pyInt (q : ℚ) : ℤ := if 0 ≤ q then ⌊q⌋ else -⌊-q⌋

/-- Opaque physics payload of one template row (masses, spins, coalescence
parameters and so on); the bank never inspects it, it only hands it to the
external generator. -/
structure Params where
  id : ℕ
deriving DecidableEq

/-- One row of the loaded SnglInspiralTable: the immutable physics payload
plus the writable template_duration field (bank.py line 166). -/
structure Row where
  params : Params
  template_duration : Option ℚ
deriving DecidableEq

/-- Default row used to totalize list indexing in the embedding. -/
def rowDefault : Row := ⟨⟨0⟩, none⟩

/-- Opaque numeric dtype tag (for example complex64). -/
structure DType where
  id : ℕ
deriving DecidableEq

/-- Frequency-domain noise spectrum (PSD): sample data plus its dtype. -/
structure PSD where
  data : List ℚ
  dtype : DType
deriving DecidableEq

/-- Result of pycbc.waveform.get_waveform_filter: the produced filter content
plus the optional length_in_time attribute probed at bank.py line 139. -/
structure GenOut where
  data : List ℚ
  length_in_time : Option ℚ
deriving DecidableEq

/-- External waveform-generator interface for one approximant: capability
queries and the fill operation, all pure functions of the physics payload.
Fields correspond to pycbc.waveform.get_waveform_end_frequency,
get_template_amplitude_norm, waveform_norm_exists, get_waveform_filter_norm
(arguments: psd data, filter_length, delta_f, f_lower) and
get_waveform_filter (arguments: buffer, physics payload, f_lower, delta_f,
delta_t, distance). -/
structure Generator where
  end_frequency : Params → Option ℚ
  amplitude_norm : Params → Option ℚ
  norm_exists : Bool
  filter_norm : List ℚ → ℕ → ℚ → ℚ → List ℚ
  fill : List ℚ → Params → ℚ → ℚ → ℚ → ℚ → GenOut

/-- pycbc.DYN_RANGE_FAC, the global dynamic-range rescaling constant
(equal to 2 to the power 69 in pycbc). -/
def DYN_RANGE_FAC : ℚ := 590295810358705651712

/-- The frequency-domain filter object returned by FilterBank.__getitem__
together with the metadata attributes attached to it. -/
structure FDFilter where
  data : List ℚ
  dtype : DType
  delta_f : ℚ
  end_frequency : Option ℚ
  end_idx : Option ℤ
  sigmasq : Option ℚ
  params : Row
  length_in_time : Option ℚ
deriving DecidableEq

/-- State of a FilterBank object (bank.py lines 77-108). -/
structure FilterBankSt where
  approximant : Generator
  filter_length : ℕ
  delta_f : ℚ
  f_lower : ℚ
  dtype : DType
  psd : Option PSD
  out : Option (List ℚ)
  table : List Row
  sigmasq_vec : Option (List ℚ)
  N : ℤ
  delta_t : ℚ
  kmin : ℤ

/-- FilterBank.__init__ (bank.py lines 78-108).  The outcome of the external
LIGOLW loader is passed in as loaded; the try/except collapses a loader
failure to an empty table.  The sigmasq vector is precomputed exactly when a
psd is supplied and the approximant declares waveform_norm_exists. -/
def FilterBank.init (loaded : Except Unit (List Row)) (approximant : Generator)
    (filter_length : ℕ) (delta_f f_lower : ℚ) (dtype : DType)
    (psd : Option PSD) (out : Option (List ℚ)) : FilterBankSt :=
  { approximant := approximant
    filter_length := filter_length
    delta_f := delta_f
    f_lower := f_lower
    dtype := dtype
    psd := psd
    out := out
    table := match loaded with
      | .ok t => t
      | .error _ => []
    sigmasq_vec := match psd with
      | some p =>
          if approximant.norm_exists then
            some (approximant.filter_norm p.data filter_length delta_f f_lower)
          else none
      | none => none
    N := ((filter_length : ℤ) - 1) * 2
    delta_t := 1 / (((((filter_length : ℤ) - 1) * 2 : ℤ) : ℚ) * delta_f)
    kmin := pyInt (f_lower / delta_f) }

/-- FilterBank.__len__ (bank.py lines 110-111). -/
def FilterBankSt.len (b : FilterBankSt) : ℕ := b.table.length

/-- The buffer slice handed to get_waveform_filter (bank.py lines 114-133):
a fresh zeros(filter_length) when out is None, else the shared out buffer;
in either case tempout.clear() zero-fills it, and the slice
tempout[0:filter_length] is what the generator receives. -/
def FilterBankSt.genBuffer (b : FilterBankSt) : List ℚ :=
  let tempout : List ℚ := match b.out with
    | none => List.replicate b.filter_length 0
    | some buf => buf
  let tempout := List.replicate tempout.length (0 : ℚ)
  tempout.take b.filter_length

/-- End-frequency clamp (bank.py lines 124-125): a missing report, or a value
at or beyond filter_length * delta_f, is replaced by
(filter_length - 1) * delta_f. -/
def clampFEnd (filter_length : ℕ) (delta_f : ℚ) (fEnd : Option ℚ) : ℚ :=
  match fEnd with
  | none => ((filter_length : ℚ) - 1) * delta_f
  | some f =>
      if (filter_length : ℚ) * delta_f ≤ f then ((filter_length : ℚ) - 1) * delta_f
      else f

/-- The get_waveform_filter call of bank.py lines 133-136 for a given row:
the generator fills the zeroed buffer slice, at reference distance
1 / DYN_RANGE_FAC. -/
def FilterBankSt.genOutRow (b : FilterBankSt) (row : Row) : GenOut :=
  b.approximant.fill b.genBuffer row.params b.f_lower b.delta_f b.delta_t
    (1 / DYN_RANGE_FAC)

/-- Body of FilterBank.__getitem__ (bank.py lines 120-165) for a given row:
end-frequency query and clamp, generator fill, dtype coercion, metadata
attachment and the three-way sigmasq policy.  The params attribute aliases
the row after the duration write-back of line 166. -/
def FilterBankSt.itemOfRow (sq : List ℚ → PSD → ℚ → ℚ) (b : FilterBankSt)
    (row : Row) : FDFilter :=
  let f_end := clampFEnd b.filter_length b.delta_f
    (b.approximant.end_frequency row.params)
  let gout := b.genOutRow row
  let lit := gout.length_in_time
  let end_idx := pyInt (f_end / b.delta_f)
  let newRow := match lit with
    | some d => { row with template_duration := some d }
    | none => row
  let sigsq : Option ℚ := match b.psd with
    | none => none
    | some p =>
        match b.sigmasq_vec with
        | some v =>
            let amp_norm := (b.approximant.amplitude_norm row.params).getD 1
            some (v.getD end_idx.toNat 0 * (DYN_RANGE_FAC * amp_norm) ^ 2)
        | none => some (sq gout.data p b.f_lower)
  { data := gout.data
    dtype := b.dtype
    delta_f := b.delta_f
    end_frequency := some f_end
    end_idx := some end_idx
    sigmasq := sigsq
    params := newRow
    length_in_time := lit }

/-- FilterBank.__getitem__ (bank.py lines 113-168), parametric in the external
sigmasq inner-product routine sq.  Returns the filter together with the
post-call bank state: when the generator reported a duration, the table row at
this index receives it (line 166); nothing else in the state changes. -/
def FilterBankSt.getitem (sq : List ℚ → PSD → ℚ → ℚ) (b : FilterBankSt)
    (index : ℕ) : FDFilter × FilterBankSt :=
  let row := b.table.getD index rowDefault
  let h := b.itemOfRow sq row
  let newTable := match h.length_in_time with
    | some _ => b.table.set index h.params
    | none => b.table
  (h, { b with table := newTable })

/-- Modelled from the spec: pycbc Array.resize (not under src/), described as
"zero-pad the time series to length N" and "zero-pad/truncate the result to
filter_length bins": the result keeps the first n entries of the input and is
padded with the zero element z beyond the input's length. -/
def resizeL {α : Type} (z : α) (a : List α) (n : ℕ) : List α :=
  (List.range n).map fun i => a.getD i z

/-- Modelled from the spec: pycbc Array.roll (numpy.roll, not under src/),
described as "cyclically shift": shift by s places to the right (negative s
shifts left), so out[i] = a[(i - s) mod length]. -/
def rollL {α : Type} (z : α) (a : List α) (s : ℤ) : List α :=
  (List.range a.length).map fun i =>
    a.getD (((i : ℤ) - s) % (a.length : ℤ)).toNat z

/-- A real time series as built at bank.py line 66: sample data, sample
spacing delta_t and dtype. -/
structure TimeSeriesQ where
  data : List ℚ
  delta_t : ℚ
  dtype : DType
deriving DecidableEq

/-- The frequency-domain filter object returned by
CachedFilterBank.__getitem__ (complex bins modelled as pairs of rationals).
The end_frequency and end_idx attributes are never set on this path, hence
the Option fields. -/
structure CFilter where
  data : List (ℚ × ℚ)
  dtype : DType
  delta_f : ℚ
  end_frequency : Option ℚ
  end_idx : Option ℤ
  sigmasq : Option ℚ
  params : Row
deriving DecidableEq

/-- State of a CachedFilterBank object (bank.py lines 42-60). -/
structure CachedFilterBankSt where
  filter_length : ℕ
  delta_f : ℚ
  f_lower : ℚ
  dtype : DType
  psd : PSD
  sigmasq_vec : Option (List ℚ)
  N : ℤ
  cache : ℕ → List ℚ
  table : List Row

/-- CachedFilterBank.__init__ (bank.py lines 43-60), with the already-open
h5py cache passed in as a lookup function keyed by index and the LIGOLW
loader outcome as loaded; a loader failure degrades to an empty table. -/
def CachedFilterBank.init (loaded : Except Unit (List Row))
    (cache : ℕ → List ℚ) (filter_length : ℕ) (delta_f f_lower : ℚ)
    (dtype : DType) (psd : PSD) : CachedFilterBankSt :=
  { filter_length := filter_length
    delta_f := delta_f
    f_lower := f_lower
    dtype := dtype
    psd := psd
    sigmasq_vec := none
    N := ((filter_length : ℤ) - 1) * 2
    cache := cache
    table := match loaded with
      | .ok t => t
      | .error _ => [] }

/-- CachedFilterBank.__len__ (bank.py lines 62-63). -/
def CachedFilterBankSt.len (b : CachedFilterBankSt) : ℕ := b.table.length

/-- The raw time series constructed at bank.py line 66: the cached samples at
the fixed rate delta_t = 1/4096, with the psd's dtype. -/
def CachedFilterBankSt.rawTemplate (b : CachedFilterBankSt) (index : ℕ) :
    TimeSeriesQ :=
  { data := b.cache index, delta_t := 1 / 4096, dtype := b.psd.dtype }

/-- Bank.py lines 67-69: resize the series to N samples and roll it left by
its pre-resize length. -/
def CachedFilterBankSt.prepared (b : CachedFilterBankSt) (index : ℕ) :
    List ℚ :=
  let template := (b.rawTemplate index).data
  let template_size := template.length
  rollL 0 (resizeL 0 template b.N.toNat) (-(template_size : ℤ))

/-- CachedFilterBank.__getitem__ (bank.py lines 65-74), parametric in the
external real-to-complex FFT underlying to_frequencyseries and in the
sigmasq inner-product routine for complex series.  The frequency series is
resized to filter_length bins, sigmasq is always computed directly against
the psd from f_lower, and no end-frequency metadata is attached. -/
def CachedFilterBankSt.getitem (fft : List ℚ → List (ℚ × ℚ))
    (sqc : List (ℚ × ℚ) → PSD → ℚ → ℚ) (b : CachedFilterBankSt)
    (index : ℕ) : CFilter :=
  let htilde := resizeL ((0 : ℚ), (0 : ℚ)) (fft (b.prepared index))
    b.filter_length
  { data := htilde
    dtype := b.psd.dtype
    delta_f := 1 / ((b.N : ℚ) * (1 / 4096))
    end_frequency := none
    end_idx := none
    sigmasq := some (sqc htilde b.psd b.f_lower)
    params := b.table.getD index rowDefault }

/-- The generator's end-frequency report for the row at a given index
(bank.py lines 121-122). -/
def FilterBankSt.reportedFEnd (b : FilterBankSt) (index : ℕ) : Option ℚ :=
  b.approximant.end_frequency (b.table.getD index rowDefault).params

theorem pyInt_eq_floor (q : ℚ) (h : 0 ≤ q) : pyInt q = ⌊q⌋ := if_pos h

theorem getD_set_self {α : Type} (l : List α) (i : ℕ) (x d : α)
    (h : i < l.length) : (l.set i x).getD i d = x := by
  simp [List.getD_eq_getElem?_getD, List.getElem?_set_self h]

theorem getD_set_ne {α : Type} (l : List α) (i j : ℕ) (x d : α) (h : j ≠ i) :
    (l.set i x).getD j d = l.getD j d := by
  simp [List.getD_eq_getElem?_getD, List.getElem?_set_ne (Ne.symm h)]

theorem getD_map_range {α : Type} (f : ℕ → α) (n i : ℕ) (d : α) :
    ((List.range n).map f).getD i d = if i < n then f i else d := by
  by_cases h : i < n
  · simp [List.getD_eq_getElem?_getD, List.getElem?_range h, h]
  · simp only [List.getD_eq_getElem?_getD, List.getElem?_map]
    rw [List.getElem?_eq_none (by simpa using h)]
    simp [h]

theorem resizeL_length {α : Type} (z : α) (a : List α) (n : ℕ) :
    (resizeL z a n).length = n := by
  simp [resizeL]

theorem resizeL_getD {α : Type} (z : α) (a : List α) (n i : ℕ) :
    (resizeL z a n).getD i z = if i < n then a.getD i z else z := by
  unfold resizeL
  rw [getD_map_range]

theorem itemOfRow_params (sq : List ℚ → PSD → ℚ → ℚ) (b : FilterBankSt)
    (row : Row) :
    (b.itemOfRow sq row).params =
      match (b.genOutRow row).length_in_time with
      | some d => { row with template_duration := some d }
      | none => row := rfl

theorem itemOfRow_lit (sq : List ℚ → PSD → ℚ → ℚ) (b : FilterBankSt)
    (row : Row) :
    (b.itemOfRow sq row).length_in_time =
      (b.genOutRow row).length_in_time := rfl

theorem getitem_fst (sq : List ℚ → PSD → ℚ → ℚ) (b : FilterBankSt)
    (index : ℕ) :
    (b.getitem sq index).1 =
      b.itemOfRow sq (b.table.getD index rowDefault) := rfl

theorem getitem_snd_table (sq : List ℚ → PSD → ℚ → ℚ) (b : FilterBankSt)
    (index : ℕ) :
    (b.getitem sq index).2.table =
      match (b.genOutRow (b.table.getD index rowDefault)).length_in_time with
      | some _ =>
          b.table.set index
            ((b.itemOfRow sq (b.table.getD index rowDefault)).params)
      | none => b.table := rfl

theorem getitem_params_table (sq : List ℚ → PSD → ℚ → ℚ) (b : FilterBankSt)
    (index : ℕ) (h : index < b.table.length) :
    (b.getitem sq index).1.params =
      (b.getitem sq index).2.table.getD index rowDefault := by
  rw [getitem_fst, getitem_snd_table, itemOfRow_params]
  cases hl : (b.genOutRow (b.table.getD index rowDefault)).length_in_time with
  | none => simp [hl]
  | some d =>
      simp only [hl]
      rw [getD_set_self _ _ _ _ h]

theorem getitem_params_payload (sq : List ℚ → PSD → ℚ → ℚ)
    (b : FilterBankSt) (index : ℕ) :
    ((b.getitem sq index).1.params).params =
      (b.table.getD index rowDefault).params := by
  rw [getitem_fst, itemOfRow_params]
  cases hl : (b.genOutRow (b.table.getD index rowDefault)).length_in_time <;>
    simp [hl]

theorem getD_eq_default {α : Type} (l : List α) (i : ℕ) (d : α)
    (h : l.length ≤ i) : l.getD i d = d := by
  rw [List.getD_eq_getElem?_getD, List.getElem?_eq_none h]
  rfl

theorem clampFEnd_pos_bounds (fl : ℕ) (df : ℚ) (r : Option ℚ)
    (hfl : 2 ≤ fl) (hdf : 0 < df) (hpos : ∀ f, r = some f → 0 < f) :
    0 < clampFEnd fl df r ∧ clampFEnd fl df r < (fl : ℚ) * df := by
  have hfl2 : (2 : ℚ) ≤ (fl : ℚ) := by exact_mod_cast hfl
  have hcap : 0 < ((fl : ℚ) - 1) * df := by nlinarith
  have hcap2 : ((fl : ℚ) - 1) * df < (fl : ℚ) * df := by nlinarith
  cases r with
  | none => exact ⟨hcap, hcap2⟩
  | some f =>
      by_cases hge : (fl : ℚ) * df ≤ f
      · simpa [clampFEnd, hge] using ⟨hcap, hcap2⟩
      · simpa [clampFEnd, hge] using ⟨hpos f rfl, lt_of_not_le hge⟩

theorem pyInt_range (q : ℚ) (m : ℕ) (h0 : 0 < q) (hm : q < (m : ℚ)) :
    0 ≤ pyInt q ∧ pyInt q ≤ (m : ℤ) - 1 := by
  rw [pyInt_eq_floor q h0.le]
  refine ⟨Int.floor_nonneg.2 h0.le, ?_⟩
  have h : ⌊q⌋ < (m : ℤ) := by
    rw [Int.floor_lt]
    exact_mod_cast hm
  omega

/-- Concrete dtype tags used in witnesses. -/
def dt0 : DType := ⟨0⟩

def dt1 : DType := ⟨1⟩

/-- Concrete flat unit spectrum used in witnesses. -/
def psd0 : PSD := ⟨[1, 1, 1, 1], dt0⟩

/-- Concrete table row used in witnesses. -/
def row0 : Row := ⟨⟨0⟩, none⟩

/-- Trivial external sigmasq routine used in witnesses. -/
def sq0 : List ℚ → PSD → ℚ → ℚ := fun _ _ _ => 0

/-- Trivial external complex sigmasq routine used in witnesses. -/
def sqc0 : List (ℚ × ℚ) → PSD → ℚ → ℚ := fun _ _ _ => 0

/-- Trivial external FFT used in witnesses. -/
def fft0 : List ℚ → List (ℚ × ℚ) := fun a => a.map fun x => (x, 0)

/-- Concrete generator for witnesses: end frequency 2, amplitude norm 1,
precomputed-norm support, unit norm vector, duration report 5. -/
def genPos : Generator :=
  { end_frequency := fun _ => some 2
    amplitude_norm := fun _ => some 1
    norm_exists := true
    filter_norm := fun _ n _ _ => List.replicate n 1
    fill := fun buf _ _ _ _ _ => { data := buf, length_in_time := some 5 } }

/-- Concrete witness bank: one row, filter_length 4, delta_f 1, f_lower 1,
flat psd, private per-call allocation. -/
def bankW : FilterBankSt :=
  FilterBank.init (.ok [row0]) genPos 4 1 1 dt0 (some psd0) none

/-- Generator whose end-frequency report 7/2 lies strictly between
(filter_length-1)*delta_f and filter_length*delta_f of the bank below. -/
def genCexa : Generator :=
  { genPos with
    end_frequency := fun _ => some (7 / 2)
    norm_exists := false
    fill := fun buf _ _ _ _ _ => { data := buf, length_in_time := none } }

/-- Bank exposing the end_frequency upper-bound gap: filter_length 4,
delta_f 1. -/
def bankCexa : FilterBankSt :=
  FilterBank.init (.ok [row0]) genCexa 4 1 1 dt0 none none

/-- Generator reporting a negative end frequency, which escapes the clamp. -/
def genCexb : Generator :=
  { genCexa with end_frequency := fun _ => some (-1) }

/-- Bank exposing the negative-report gap: filter_length 4, delta_f 1. -/
def bankCexb : FilterBankSt :=
  FilterBank.init (.ok [row0]) genCexb 4 1 1 dt0 none none

/-- Claim C1 (counterexample): with filter_length = 4 and delta_f = 1, a
generator end-frequency report of 7/2 is below filter_length*delta_f = 4 so
the clamp leaves it alone, and the returned end_frequency 7/2 exceeds the
claimed bound (filter_length-1)*delta_f = 3; and a report of -1 also escapes
the clamp and yields end_idx = -1, outside the claimed range
[0, filter_length-1]. -/
theorem C1_end_clamp_cex :
    ((bankCexa.getitem sq0 0).1.end_frequency = some (7 / 2) ∧
      ¬ ((7 / 2 : ℚ) ≤ ((4 : ℚ) - 1) * 1)) ∧
    ((bankCexb.getitem sq0 0).1.end_idx = some (-1) ∧ ¬ ((0 : ℤ) ≤ -1)) := by
  refine ⟨⟨?_, by norm_num⟩, ⟨?_, by norm_num⟩⟩
  · simp [bankCexa, FilterBank.init, genCexa, genPos, row0, rowDefault,
      FilterBankSt.getitem, FilterBankSt.itemOfRow, FilterBankSt.genOutRow,
      clampFEnd]
    norm_num
  · simp [bankCexb, FilterBank.init, genCexb, genCexa, genPos, row0,
      rowDefault, FilterBankSt.getitem, FilterBankSt.itemOfRow,
      FilterBankSt.genOutRow, clampFEnd, pyInt]
    norm_num

/-- Claim C1 (amended): for a bank with filter_length ≥ 2 and delta_f > 0,
and a template whose generator end-frequency report is either absent or
positive, __getitem__ sets end_frequency to the clamped report (a missing
report, or one at or beyond filter_length*delta_f, is capped to
(filter_length-1)*delta_f) and end_idx to int(end_frequency/delta_f);
end_idx then lies in [0, filter_length-1] and end_frequency in
(0, filter_length*delta_f).  The bound end_frequency ≤
(filter_length-1)*delta_f claimed originally fails for reports strictly
between (filter_length-1)*delta_f and filter_length*delta_f, and negative
reports escape the clamp; see the counterexample. -/
theorem C1_end_clamp (sq : List ℚ → PSD → ℚ → ℚ) (b : FilterBankSt)
    (index : ℕ) (hfl : 2 ≤ b.filter_length) (hdf : 0 < b.delta_f)
    (hpos : ∀ f, b.reportedFEnd index = some f → 0 < f) :
    (b.getitem sq index).1.end_frequency =
      some (clampFEnd b.filter_length b.delta_f (b.reportedFEnd index)) ∧
    (b.getitem sq index).1.end_idx =
      some (pyInt
        (clampFEnd b.filter_length b.delta_f (b.reportedFEnd index) /
          b.delta_f)) ∧
    0 < clampFEnd b.filter_length b.delta_f (b.reportedFEnd index) ∧
    clampFEnd b.filter_length b.delta_f (b.reportedFEnd index) <
      (b.filter_length : ℚ) * b.delta_f ∧
    0 ≤ pyInt
      (clampFEnd b.filter_length b.delta_f (b.reportedFEnd index) /
        b.delta_f) ∧
    pyInt (clampFEnd b.filter_length b.delta_f (b.reportedFEnd index) /
        b.delta_f) ≤ (b.filter_length : ℤ) - 1 := by
  obtain ⟨hF0, hFlt⟩ :=
    clampFEnd_pos_bounds b.filter_length b.delta_f (b.reportedFEnd index)
      hfl hdf hpos
  have hq0 : 0 < clampFEnd b.filter_length b.delta_f (b.reportedFEnd index) /
      b.delta_f := div_pos hF0 hdf
  have hqlt : clampFEnd b.filter_length b.delta_f (b.reportedFEnd index) /
      b.delta_f < (b.filter_length : ℚ) := by
    rw [div_lt_iff₀ hdf]
    exact hFlt
  obtain ⟨hk0, hk1⟩ := pyInt_range _ b.filter_length hq0 hqlt
  exact ⟨rfl, rfl, hF0, hFlt, hk0, hk1⟩

/-- Claim C1 witness: the amended theorem applied to the concrete bank bankW
(filter_length 4, delta_f 1, generator report 2). -/
theorem C1_end_clamp_witness :
    (2 ≤ bankW.filter_length ∧ 0 < bankW.delta_f ∧
      (∀ f, bankW.reportedFEnd 0 = some f → 0 < f)) ∧
    ((bankW.getitem sq0 0).1.end_frequency =
      some (clampFEnd bankW.filter_length bankW.delta_f
        (bankW.reportedFEnd 0)) ∧
    (bankW.getitem sq0 0).1.end_idx =
      some (pyInt
        (clampFEnd bankW.filter_length bankW.delta_f (bankW.reportedFEnd 0) /
          bankW.delta_f)) ∧
    0 < clampFEnd bankW.filter_length bankW.delta_f (bankW.reportedFEnd 0) ∧
    clampFEnd bankW.filter_length bankW.delta_f (bankW.reportedFEnd 0) <
      (bankW.filter_length : ℚ) * bankW.delta_f ∧
    0 ≤ pyInt
      (clampFEnd bankW.filter_length bankW.delta_f (bankW.reportedFEnd 0) /
        bankW.delta_f) ∧
    pyInt (clampFEnd bankW.filter_length bankW.delta_f
        (bankW.reportedFEnd 0) / bankW.delta_f) ≤
      (bankW.filter_length : ℤ) - 1) :=
  have hfl : 2 ≤ bankW.filter_length := by norm_num [bankW, FilterBank.init]
  have hdf : 0 < bankW.delta_f := by norm_num [bankW, FilterBank.init]
  have hpos : ∀ f, bankW.reportedFEnd 0 = some f → 0 < f := by
    intro f hf
    simp [bankW, FilterBank.init, genPos, row0, rowDefault,
      FilterBankSt.reportedFEnd] at hf
    subst hf
    norm_num
  ⟨⟨hfl, hdf, hpos⟩, C1_end_clamp sq0 bankW 0 hfl hdf hpos⟩

/-- Claim C2: in FilterBank.__getitem__, when no psd was supplied the
returned filter's sigmasq is left unset; when a psd was supplied and a
precomputed normalization vector exists, sigmasq is the vector entry at
end_idx times (DYN_RANGE_FAC * amplitude_norm)^2, the generator-reported
amplitude norm defaulting to 1 when absent; when a psd was supplied but no
vector exists, sigmasq is the direct sigmasq integration of the filter data
against the psd from f_lower. -/
theorem C2_sigmasq_policy (sq : List ℚ → PSD → ℚ → ℚ) (b : FilterBankSt)
    (index : ℕ) :
    (b.psd = none → (b.getitem sq index).1.sigmasq = none) ∧
    (∀ p v k, b.psd = some p → b.sigmasq_vec = some v →
      (b.getitem sq index).1.end_idx = some k →
      (b.getitem sq index).1.sigmasq =
        some (v.getD k.toNat 0 *
          (DYN_RANGE_FAC *
            ((b.approximant.amplitude_norm
              (b.table.getD index rowDefault).params).getD 1)) ^ 2)) ∧
    (∀ p, b.psd = some p → b.sigmasq_vec = none →
      (b.getitem sq index).1.sigmasq =
        some (sq (b.getitem sq index).1.data p b.f_lower)) := by
  refine ⟨?_, ?_, ?_⟩
  · intro hp
    simp [FilterBankSt.getitem, FilterBankSt.itemOfRow, hp]
  · intro p v k hp hv hk
    simp only [FilterBankSt.getitem, FilterBankSt.itemOfRow] at hk ⊢
    simp only [Option.some.injEq] at hk
    simp [hp, hv, ← hk]
  · intro p hp hv
    simp [FilterBankSt.getitem, FilterBankSt.itemOfRow, hp, hv]

/-- Claim C2 witness: on the concrete bank bankW (psd supplied, vector of
ones, end_idx 2, amplitude norm 1) the fast-path formula holds. -/
theorem C2_sigmasq_policy_witness :
    (bankW.psd = some psd0 ∧
      bankW.sigmasq_vec = some (List.replicate 4 1) ∧
      (bankW.getitem sq0 0).1.end_idx = some 2) ∧
    (bankW.getitem sq0 0).1.sigmasq =
      some ((List.replicate 4 (1 : ℚ)).getD (2 : ℤ).toNat 0 *
        (DYN_RANGE_FAC *
          ((bankW.approximant.amplitude_norm
            (bankW.table.getD 0 rowDefault).params).getD 1)) ^ 2) :=
  have hp : bankW.psd = some psd0 := rfl
  have hv : bankW.sigmasq_vec = some (List.replicate 4 1) := rfl
  have hk : (bankW.getitem sq0 0).1.end_idx = some 2 := by
    simp [bankW, FilterBank.init, genPos, row0, rowDefault,
      FilterBankSt.getitem, FilterBankSt.itemOfRow, FilterBankSt.genOutRow,
      clampFEnd, pyInt]
    norm_num
  ⟨⟨hp, hv, hk⟩, (C2_sigmasq_policy sq0 bankW 0).2.1 psd0 _ 2 hp hv hk⟩

/-- Claim C4: constructing either bank variant over a failed table-load
outcome (nonexistent, malformed or otherwise unparseable template file)
yields an empty table, so len = 0.  The embedded constructors are total,
which models the try/except of bank.py lines 54-60 and 91-97: no exception
escapes the table-loading step. -/
theorem C4_load_failure (e : Unit) (gen : Generator) (fl : ℕ) (df flow : ℚ)
    (dt : DType) (psd : Option PSD) (out : Option (List ℚ))
    (cache : ℕ → List ℚ) (psd2 : PSD) :
    (FilterBank.init (.error e) gen fl df flow dt psd out).len = 0 ∧
    (CachedFilterBank.init (.error e) cache fl df flow dt psd2).len = 0 :=
  ⟨rfl, rfl⟩

/-- Claim C5: CachedFilterBank never builds a normalization vector, its
__getitem__ always computes sigmasq by the direct integration routine applied
to the resized frequency-domain filter, the psd and f_lower, and the
returned filter carries no end_frequency and no end_idx metadata. -/
theorem C5_cached_direct_norm (loaded : Except Unit (List Row))
    (cache : ℕ → List ℚ) (fl : ℕ) (df flow : ℚ) (dt : DType) (psd : PSD)
    (fft : List ℚ → List (ℚ × ℚ)) (sqc : List (ℚ × ℚ) → PSD → ℚ → ℚ)
    (index : ℕ) :
    (CachedFilterBank.init loaded cache fl df flow dt psd).sigmasq_vec =
      none ∧
    ((CachedFilterBank.init loaded cache fl df flow dt psd).getitem fft sqc
        index).sigmasq =
      some (sqc
        ((CachedFilterBank.init loaded cache fl df flow dt psd).getitem fft
          sqc index).data psd flow) ∧
    ((CachedFilterBank.init loaded cache fl df flow dt psd).getitem fft sqc
      index).end_frequency = none ∧
    ((CachedFilterBank.init loaded cache fl df flow dt psd).getitem fft sqc
      index).end_idx = none :=
  ⟨rfl, rfl, rfl, rfl⟩

/-- Claim C8: after FilterBank construction the normalization vector is
present iff a psd was supplied and the approximant declares
precomputed-normalization support; when present it is the vector built at
construction from the supplied psd data, filter_length, delta_f and f_lower;
and __getitem__ leaves both it and the psd untouched. -/
theorem C8_sigmasq_vec (loaded : Except Unit (List Row)) (gen : Generator)
    (fl : ℕ) (df flow : ℚ) (dt : DType) (psd : Option PSD)
    (out : Option (List ℚ)) (sq : List ℚ → PSD → ℚ → ℚ) (index : ℕ) :
    ((∃ v, (FilterBank.init loaded gen fl df flow dt psd out).sigmasq_vec =
        some v) ↔ (psd.isSome = true ∧ gen.norm_exists = true)) ∧
    (∀ p, psd = some p → gen.norm_exists = true →
      (FilterBank.init loaded gen fl df flow dt psd out).sigmasq_vec =
        some (gen.filter_norm p.data fl df flow)) ∧
    ((FilterBank.init loaded gen fl df flow dt psd out).getitem sq
        index).2.sigmasq_vec =
      (FilterBank.init loaded gen fl df flow dt psd out).sigmasq_vec ∧
    ((FilterBank.init loaded gen fl df flow dt psd out).getitem sq
      index).2.psd = psd := by
  refine ⟨?_, ?_, rfl, rfl⟩
  · cases psd with
    | none => simp [FilterBank.init]
    | some p =>
        cases hne : gen.norm_exists <;>
          simp [FilterBank.init, hne]
  · intro p hp hne
    subst hp
    simp [FilterBank.init, hne]

/-- Claim C8 witness: bankW was built with a psd and a norm-capable
generator, and its vector is the one built from psd0 at construction. -/
theorem C8_sigmasq_vec_witness :
    (some psd0 = some psd0 ∧ genPos.norm_exists = true) ∧
    bankW.sigmasq_vec = some (genPos.filter_norm psd0.data 4 1 1) :=
  ⟨⟨rfl, rfl⟩,
    (C8_sigmasq_vec (.ok [row0]) genPos 4 1 1 dt0 (some psd0) none sq0
      0).2.1 psd0 rfl rfl⟩

/-- Claim C9: for both variants len equals the loaded table's row count; the
cached variant's returned filter has params equal to row i of the table; the
synthesis variant's returned filter has params equal to row i of the
post-call table (in Python the params attribute is that very row object) and
its physics payload equal to that of loaded row i. -/
theorem C9_len_params (rows : List Row) (gen : Generator) (fl : ℕ)
    (df flow : ℚ) (dt : DType) (psd : Option PSD) (out : Option (List ℚ))
    (sq : List ℚ → PSD → ℚ → ℚ) (cache : ℕ → List ℚ) (dt2 : DType)
    (psd2 : PSD) (fft : List ℚ → List (ℚ × ℚ))
    (sqc : List (ℚ × ℚ) → PSD → ℚ → ℚ) (index : ℕ)
    (hidx : index < rows.length) :
    (FilterBank.init (.ok rows) gen fl df flow dt psd out).len =
      rows.length ∧
    (CachedFilterBank.init (.ok rows) cache fl df flow dt2 psd2).len =
      rows.length ∧
    ((FilterBank.init (.ok rows) gen fl df flow dt psd out).getitem sq
        index).1.params =
      ((FilterBank.init (.ok rows) gen fl df flow dt psd out).getitem sq
        index).2.table.getD index rowDefault ∧
    (((FilterBank.init (.ok rows) gen fl df flow dt psd out).getitem sq
        index).1.params).params = (rows.getD index rowDefault).params ∧
    ((CachedFilterBank.init (.ok rows) cache fl df flow dt2 psd2).getitem
      fft sqc index).params = rows.getD index rowDefault := by
  exact ⟨rfl, rfl,
    getitem_params_table sq (FilterBank.init (.ok rows) gen fl df flow dt
      psd out) index hidx,
    getitem_params_payload sq (FilterBank.init (.ok rows) gen fl df flow dt
      psd out) index, rfl⟩

/-- Claim C9 witness: the concrete bank bankW with its single-row table. -/
theorem C9_len_params_witness :
    0 < [row0].length ∧
    ((bankW.getitem sq0 0).1.params).params = ([row0].getD 0 rowDefault).params :=
  ⟨by decide,
    (C9_len_params [row0] genPos 4 1 1 dt0 (some psd0) none sq0
      (fun _ => []) dt0 psd0 fft0 sqc0 0 (by decide)).2.2.2.1⟩

/-- Claim C10: CachedFilterBank stores the dtype it was constructed with but
never uses it: __getitem__ output is unchanged when only the configured
dtype differs, and both the intermediate time series and the returned filter
take their dtype from the psd. -/
theorem C10_dtype_unused (loaded : Except Unit (List Row))
    (cache : ℕ → List ℚ) (fl : ℕ) (df flow : ℚ) (d1 d2 : DType) (psd : PSD)
    (fft : List ℚ → List (ℚ × ℚ)) (sqc : List (ℚ × ℚ) → PSD → ℚ → ℚ)
    (index : ℕ) :
    (CachedFilterBank.init loaded cache fl df flow d1 psd).dtype = d1 ∧
    (CachedFilterBank.init loaded cache fl df flow d1 psd).getitem fft sqc
        index =
      (CachedFilterBank.init loaded cache fl df flow d2 psd).getitem fft sqc
        index ∧
    ((CachedFilterBank.init loaded cache fl df flow d1 psd).getitem fft sqc
      index).dtype = psd.dtype ∧
    ((CachedFilterBank.init loaded cache fl df flow d1 psd).rawTemplate
      index).dtype = psd.dtype :=
  ⟨rfl, rfl, rfl, rfl⟩

/-- Claim C3: for a cache entry of any length L, CachedFilterBank.__getitem__
interprets the samples at the fixed rate 4096 samples/second (the series is
built with delta_t = 1/4096, independent of the bank's frequency
configuration), resizes the series to N = 2*(filter_length-1) samples
(keeping entry j for j < L and zero for j at or beyond L), cyclically shifts
it backward by L, transforms it with the external FFT, and resizes the
result to exactly filter_length bins, so the output length is always
filter_length. -/
theorem C3_cached_pipeline (loaded : Except Unit (List Row))
    (cache : ℕ → List ℚ) (fl : ℕ) (df flow : ℚ) (dt : DType) (psd : PSD)
    (fft : List ℚ → List (ℚ × ℚ)) (sqc : List (ℚ × ℚ) → PSD → ℚ → ℚ)
    (index : ℕ) (hfl : 1 ≤ fl) :
    ((CachedFilterBank.init loaded cache fl df flow dt psd).rawTemplate
      index).delta_t = 1 / 4096 ∧
    ((CachedFilterBank.init loaded cache fl df flow dt psd).rawTemplate
      index).data = cache index ∧
    (CachedFilterBank.init loaded cache fl df flow dt psd).prepared index =
      rollL 0 (resizeL 0 (cache index) (2 * (fl - 1)))
        (-((cache index).length : ℤ)) ∧
    (∀ j, j < 2 * (fl - 1) →
      (resizeL 0 (cache index) (2 * (fl - 1))).getD j 0 =
        if j < (cache index).length then (cache index).getD j 0 else 0) ∧
    ((CachedFilterBank.init loaded cache fl df flow dt psd).getitem fft sqc
        index).data =
      resizeL (0, 0)
        (fft ((CachedFilterBank.init loaded cache fl df flow dt
          psd).prepared index)) fl ∧
    ((CachedFilterBank.init loaded cache fl df flow dt psd).getitem fft sqc
      index).data.length = fl := by
  have hN : (CachedFilterBank.init loaded cache fl df flow dt
      psd).N.toNat = 2 * (fl - 1) := by
    show ((((fl : ℤ) - 1) * 2).toNat) = 2 * (fl - 1)
    omega
  refine ⟨rfl, rfl, ?_, ?_, rfl, ?_⟩
  · show rollL 0 (resizeL 0 (cache index)
        ((CachedFilterBank.init loaded cache fl df flow dt psd).N.toNat))
        (-((cache index).length : ℤ)) =
      rollL 0 (resizeL 0 (cache index) (2 * (fl - 1)))
        (-((cache index).length : ℤ))
    rw [hN]
  · intro j hj
    rw [resizeL_getD, if_pos hj]
    by_cases hjl : j < (cache index).length
    · rw [if_pos hjl]
    · rw [if_neg hjl, getD_eq_default _ _ _ (le_of_not_lt hjl)]
  · show (resizeL ((0 : ℚ), (0 : ℚ))
        (fft ((CachedFilterBank.init loaded cache fl df flow dt
          psd).prepared index))
        (CachedFilterBank.init loaded cache fl df flow dt
          psd).filter_length).length = fl
    rw [resizeL_length]
    rfl

/-- Claim C3 witness: the concrete scenario of the spec, a 2048-sample cache
entry with filter_length 1025, instantiating the pipeline theorem. -/
theorem C3_cached_pipeline_witness :
    1 ≤ 1025 ∧
    ((CachedFilterBank.init (Except.ok [row0])
        (fun _ => List.replicate 2048 (1 : ℚ)) 1025 1 1 dt0 psd0).getitem
      fft0 sqc0 0).data.length = 1025 :=
  ⟨by decide,
    (C3_cached_pipeline (Except.ok [row0])
      (fun _ => List.replicate 2048 (1 : ℚ)) 1025 1 1 dt0 psd0 fft0 sqc0 0
      (by decide)).2.2.2.2.2⟩

theorem genBuffer_of_none (b : FilterBankSt) (h : b.out = none) :
    b.genBuffer = List.replicate b.filter_length 0 := by
  simp [FilterBankSt.genBuffer, h, List.take_replicate]

theorem genBuffer_of_some (b : FilterBankSt) (buf : List ℚ)
    (h : b.out = some buf) (hlen : b.filter_length ≤ buf.length) :
    b.genBuffer = List.replicate b.filter_length 0 := by
  simp [FilterBankSt.genBuffer, h, List.take_replicate, min_eq_left hlen]

theorem itemOfRow_out_irrel (sq : List ℚ → PSD → ℚ → ℚ) (b : FilterBankSt)
    (buf1 buf2 : List ℚ) (row : Row) (hlen : buf1.length = buf2.length) :
    FilterBankSt.itemOfRow sq { b with out := some buf1 } row =
      FilterBankSt.itemOfRow sq { b with out := some buf2 } row := by
  have hbuf : FilterBankSt.genBuffer { b with out := some buf1 } =
      FilterBankSt.genBuffer { b with out := some buf2 } := by
    show (List.replicate buf1.length (0 : ℚ)).take b.filter_length =
      (List.replicate buf2.length (0 : ℚ)).take b.filter_length
    rw [hlen]
  dsimp only [FilterBankSt.itemOfRow, FilterBankSt.genOutRow]
  rw [hbuf]

theorem itemOfRow_duration_invariant (sq : List ℚ → PSD → ℚ → ℚ)
    (b : FilterBankSt) (row : Row) (d : ℚ)
    (hl : (b.genOutRow row).length_in_time = some d) :
    b.itemOfRow sq { row with template_duration := some d } =
      b.itemOfRow sq row := by
  dsimp only [FilterBankSt.itemOfRow, FilterBankSt.genOutRow] at hl ⊢
  rw [hl]

/-- Claim C6: __getitem__ always hands the generator an all-zero buffer of
length filter_length (freshly allocated when out is None; the shared out
buffer, when at least filter_length long, is cleared before each use), the
produced filter does not depend on the prior contents of a shared buffer of
a given size, and with private per-call allocation two successive calls at
the same index return identical filters. -/
theorem C6_zeroed_buffer (sq : List ℚ → PSD → ℚ → ℚ) (b : FilterBankSt)
    (index : ℕ) :
    (b.out = none → b.genBuffer = List.replicate b.filter_length 0) ∧
    (∀ buf, b.out = some buf → b.filter_length ≤ buf.length →
      b.genBuffer = List.replicate b.filter_length 0) ∧
    (∀ buf1 buf2 : List ℚ, buf1.length = buf2.length →
      (FilterBankSt.getitem sq { b with out := some buf1 } index).1 =
        (FilterBankSt.getitem sq { b with out := some buf2 } index).1) ∧
    (b.out = none →
      ((b.getitem sq index).2.getitem sq index).1 =
        (b.getitem sq index).1) := by
  refine ⟨genBuffer_of_none b, fun buf h hlen => genBuffer_of_some b buf h
    hlen, ?_, ?_⟩
  · intro buf1 buf2 hlen
    rw [getitem_fst, getitem_fst]
    exact itemOfRow_out_irrel sq b buf1 buf2 _ hlen
  · intro _
    have hsnd : (b.getitem sq index).2 = { b with table :=
        match (b.genOutRow
            (b.table.getD index rowDefault)).length_in_time with
        | some _ => b.table.set index
            ((b.itemOfRow sq (b.table.getD index rowDefault)).params)
        | none => b.table } := rfl
    rw [getitem_fst, getitem_fst, hsnd]
    cases hl : (b.genOutRow
        (b.table.getD index rowDefault)).length_in_time with
    | none => simp only [hl]
    | some d =>
        simp only [hl]
        by_cases hi : index < b.table.length
        · rw [getD_set_self _ _ _ _ hi]
          rw [show (b.itemOfRow sq (b.table.getD index rowDefault)).params =
              { b.table.getD index rowDefault with
                template_duration := some d } from by
            rw [itemOfRow_params, hl]]
          exact itemOfRow_duration_invariant sq _ _ d hl
        · rw [List.set_eq_of_length_le (le_of_not_lt hi)]

/-- Claim C6 witness: bankW uses private per-call allocation; its generator
buffer is four zeros and a repeated access at index 0 returns the same
filter. -/
theorem C6_zeroed_buffer_witness :
    bankW.out = none ∧
    bankW.genBuffer = List.replicate bankW.filter_length 0 ∧
    ((bankW.getitem sq0 0).2.getitem sq0 0).1 = (bankW.getitem sq0 0).1 :=
  ⟨rfl, (C6_zeroed_buffer sq0 bankW 0).1 rfl,
    (C6_zeroed_buffer sq0 bankW 0).2.2.2 rfl⟩

/-- Claim C7: the generator-reported duration, exactly when present, is both
attached to the returned filter and written to template_duration of the table
row at this index; rows at other indices are untouched, the row's physics
payload is untouched, and the table keeps its length.  When no duration is
reported the table is unchanged. -/
theorem C7_duration_frame (sq : List ℚ → PSD → ℚ → ℚ) (b : FilterBankSt)
    (index : ℕ) (hidx : index < b.table.length) :
    (∀ d, (b.genOutRow (b.table.getD index rowDefault)).length_in_time =
        some d →
      (b.getitem sq index).1.length_in_time = some d ∧
      (b.getitem sq index).2.table =
        b.table.set index
          { b.table.getD index rowDefault with
            template_duration := some d } ∧
      ((b.getitem sq index).2.table.getD index
        rowDefault).template_duration = some d) ∧
    ((b.genOutRow (b.table.getD index rowDefault)).length_in_time = none →
      (b.getitem sq index).1.length_in_time = none ∧
      (b.getitem sq index).2.table = b.table) ∧
    (∀ j, j ≠ index →
      (b.getitem sq index).2.table.getD j rowDefault =
        b.table.getD j rowDefault) ∧
    ((b.getitem sq index).2.table.getD index rowDefault).params =
      (b.table.getD index rowDefault).params ∧
    (b.getitem sq index).2.table.length = b.table.length := by
  refine ⟨?_, ?_, ?_, ?_, ?_⟩
  · intro d hl
    have htab : (b.getitem sq index).2.table =
        b.table.set index
          { b.table.getD index rowDefault with
            template_duration := some d } := by
      rw [getitem_snd_table, hl]
      simp only
      rw [itemOfRow_params, hl]
    refine ⟨?_, htab, ?_⟩
    · rw [getitem_fst, itemOfRow_lit, hl]
    · rw [htab, getD_set_self _ _ _ _ hidx]
  · intro hl
    exact ⟨by rw [getitem_fst, itemOfRow_lit, hl],
      by rw [getitem_snd_table, hl]⟩
  · intro j hj
    rw [getitem_snd_table]
    cases hl : (b.genOutRow
        (b.table.getD index rowDefault)).length_in_time with
    | none => rfl
    | some d => exact getD_set_ne _ _ _ _ _ hj
  · rw [getitem_snd_table]
    cases hl : (b.genOutRow
        (b.table.getD index rowDefault)).length_in_time with
    | none => rfl
    | some d =>
        rw [getD_set_self _ _ _ _ hidx, itemOfRow_params, hl]
  · rw [getitem_snd_table]
    cases hl : (b.genOutRow
        (b.table.getD index rowDefault)).length_in_time with
    | none => rfl
    | some d => exact List.length_set b.table index _

/-- Claim C7 witness: on bankW the generator reports duration 5, and after
the access the table row at index 0 carries template_duration 5. -/
theorem C7_duration_frame_witness :
    0 < bankW.table.length ∧
    ((bankW.getitem sq0 0).2.table.getD 0 rowDefault).template_duration =
      some 5 :=
  ⟨by decide,
    ((C7_duration_frame sq0 bankW 0 (by decide)).1 5 rfl).2.2⟩

end PycbcBank
